import Mathlib

/-
  Verification of the Adoopa validator serverless function
  (src/functions/validate.js) against its natural-language design notes.

  The JavaScript source is shallowly embedded: external collaborators
  (the ledger contract, the Neynar identity/content/reaction index, the
  keccak hash and the ECDSA signer) are modelled as function-valued
  parameters bundled in small "world" structures; the decision logic,
  the pagination loops, the try/catch error policy and the JS truthiness
  coercions are translated faithfully.  Epoch-millisecond times are Nat.
-/

namespace Validator

/-! ## Basic values -/

/-- An ECDSA signature as returned by ethers: the (v, r, s) triple.
r and s are 256-bit words, modelled as Nat. -/
structure Sig where
  v : Nat
  r : Nat
  s : Nat
deriving DecidableEq

/-- A runtime error thrown by the JS code.  `typeError` models a
TypeError such as reading a property of undefined or calling undefined;
`thrown` models an error object propagated from an external call. -/
inductive JsError where
  | typeError
  | thrown (msg : String)
deriving DecidableEq

/-- The JSON object returned by the validate function.  An unsigned
response is `{offerId, result}` (sig = none); a signed response is
`{offer_id, result, v, r, s}` (sig = some).  The differing JSON key
names (offerId vs offer_id) carry no information and are not modelled. -/
structure VResult where
  offerId : Nat
  result : Bool
  sig : Option Sig
deriving DecidableEq

/-- The offer snapshot assembled by fetchOfferById from the on-chain
record plus the two Neynar resolutions.  Field names follow the source. -/
structure Offer where
  id : Nat
  state : Nat
  type : Nat
  receiverFid : Nat
  castHash : String
  durationMs : Nat
  acceptTimeMs : Nat
deriving DecidableEq

/-- `const DAY_IN_MS = 24 * 60 * 60 * 1000` -/
def DAY_IN_MS : Nat := 24 * 60 * 60 * 1000

/-! ## JS truthiness on the nullable reaction timestamp

`findReactionCreateTimeMs` returns either null (no reaction) or a
number of epoch milliseconds.  In the conditions of `validate` the
value is used both in boolean position (null and 0 are falsy) and in
arithmetic comparisons (Number(null) = 0). -/

/-- Truthiness of the nullable timestamp: null and 0 are falsy. -/
def jsTruthy : Option Nat → Bool
  | none => false
  | some v => v != 0

/-- Numeric coercion of the nullable timestamp: Number(null) = 0. -/
def jsNum : Option Nat → Nat
  | none => 0
  | some v => v

/-! ## Attestation generator (generateSignature)

`keccak256(AbiCoder.defaultAbiCoder().encode(["uint256","bool"],
[message.offerId, message.result]))`, then an ECDSA signature over the
32-byte hash.  The ABI encoding of a (uint256, bool) pair is two
32-byte big-endian words; keccak256 and the curve signature are
external primitives, modelled as parameters. -/

/-- Big-endian 32-byte encoding of a 256-bit word. -/
def beBytes32 (n : Nat) : List Nat :=
  (List.range 32).map (fun i => n / 256 ^ (31 - i) % 256)

/-- ABI encoding of `(uint256 offerId, bool result)`: two 32-byte
words, the bool as 0 or 1. -/
def abiEncodeUint256Bool (offerId : Nat) (result : Bool) : List Nat :=
  beBytes32 offerId ++ beBytes32 (if result then 1 else 0)

/-- The cryptographic primitives held by the process: keccak256 over a
byte list, and the wallet signing key applied to a 256-bit hash. -/
structure CryptoWorld where
  keccak : List Nat → Nat
  ecsign : Nat → Sig

/-- `generateSignature`: hash the ABI encoding of the exact
(offerId, result) pair and sign the hash; the response repeats the
same pair next to the v, r, s fields. -/
def generateSignature (cw : CryptoWorld) (offerId : Nat) (result : Bool) : VResult :=
  let dataHash := cw.keccak (abiEncodeUint256Bool offerId result)
  let signature := cw.ecsign dataHash
  ⟨offerId, result, some signature⟩

/-! ## Decision policy (the body of validate after the lookup) -/

/-- The cancellation condition of validate:
`(!reactionCreateTimeMs && Date.now() > offer.acceptTimeMs + DAY_IN_MS) ||
 reactionCreateTimeMs > offer.acceptTimeMs + DAY_IN_MS`. -/
def cancellableCond (offer : Offer) (t : Option Nat) (now : Nat) : Bool :=
  (!jsTruthy t && decide (offer.acceptTimeMs + DAY_IN_MS < now)) ||
  decide (offer.acceptTimeMs + DAY_IN_MS < jsNum t)

/-- The completion condition of validate:
`reactionCreateTimeMs && Date.now() > reactionCreateTimeMs + offer.durationMs`. -/
def completableCond (offer : Offer) (t : Option Nat) (now : Nat) : Bool :=
  jsTruthy t && decide (jsNum t + offer.durationMs < now)

/-- The two signed branches and the final unsigned fallthrough of
validate, after the state check. -/
def decisionCore (cw : CryptoWorld) (offerId : Nat) (offer : Offer)
    (t : Option Nat) (now : Nat) : VResult :=
  if cancellableCond offer t now then generateSignature cw offerId false
  else if completableCond offer t now then generateSignature cw offerId true
  else ⟨offerId, false, none⟩

/-- The decision part of validate as a pure function of the offer
snapshot, the located reaction timestamp (null = not found) and the
current time: the state guard followed by the two signed branches. -/
def validatePure (cw : CryptoWorld) (offerId : Nat) (offer : Offer)
    (t : Option Nat) (now : Nat) : VResult :=
  if offer.state ≠ 1 then ⟨offerId, false, none⟩
  else decisionCore cw offerId offer t now

/-- The three abstract outcomes of the decision policy. -/
inductive Decision where
  | PENDING
  | CANCELLABLE
  | COMPLETABLE
deriving DecidableEq

/-- Which outcome the branches of validate select. -/
def decision (offer : Offer) (t : Option Nat) (now : Nat) : Decision :=
  if offer.state ≠ 1 then Decision.PENDING
  else if cancellableCond offer t now then Decision.CANCELLABLE
  else if completableCond offer t now then Decision.COMPLETABLE
  else Decision.PENDING

@[simp] theorem generateSignature_result (cw : CryptoWorld) (offerId : Nat) (b : Bool) :
    (generateSignature cw offerId b).result = b := rfl

@[simp] theorem generateSignature_sig (cw : CryptoWorld) (offerId : Nat) (b : Bool) :
    (generateSignature cw offerId b).sig =
      some (cw.ecsign (cw.keccak (abiEncodeUint256Bool offerId b))) := rfl

/-- Claim C1: a response carries signature fields exactly when the
decision is terminal (CANCELLABLE or COMPLETABLE); a pending response
never carries a signature, and every carried signature is the curve
signature of the keccak hash of the ABI encoding of the exact
(offerId, result) pair returned in that same response, so the message
hash is a function of (offerId, result) alone. -/
theorem validate_sig_iff_terminal (cw : CryptoWorld) (offerId : Nat) (offer : Offer)
    (t : Option Nat) (now : Nat) :
    (validatePure cw offerId offer t now).sig =
      (if decision offer t now = Decision.PENDING then none
       else some (cw.ecsign (cw.keccak (abiEncodeUint256Bool offerId
         (validatePure cw offerId offer t now).result)))) := by
  unfold validatePure decisionCore decision
  split_ifs <;> simp_all

/-! ## Characterizations of the two branch conditions -/

theorem cancellableCond_eq_true_iff (offer : Offer) (t : Option Nat) (now : Nat) :
    cancellableCond offer t now = true ↔
      (((t = none ∨ t = some 0) ∧ offer.acceptTimeMs + DAY_IN_MS < now) ∨
       (∃ v, t = some v ∧ offer.acceptTimeMs + DAY_IN_MS < v)) := by
  cases t <;> simp [cancellableCond, jsTruthy, jsNum]

theorem completableCond_eq_true_iff (offer : Offer) (t : Option Nat) (now : Nat) :
    completableCond offer t now = true ↔
      ∃ v, t = some v ∧ v ≠ 0 ∧ v + offer.durationMs < now := by
  cases t <;> simp [completableCond, jsTruthy, jsNum]

/-! ## Concrete sample values used to instantiate the theorems -/

/-- A concrete crypto world: a trivial hash and a constant signer. -/
def cwC : CryptoWorld := ⟨fun _ => 0, fun _ => ⟨27, 1, 2⟩⟩

/-- A concrete ACCEPTED offer: id 1, recast type, accepted at epoch 0,
duration 1000 ms. -/
def offerC : Offer := ⟨1, 1, 0, 7, "h", 1000, 0⟩

/-- Claim C2 (amended): for an ACCEPTED offer, the evaluation returns
the signed cancellable outcome (result false, signature present) iff
either the located engagement timestamp is absent OR EQUAL TO 0 and
now is strictly past acceptTimeMs + 86400000, or the timestamp is
present and strictly greater than acceptTimeMs + 86400000.  (A
timestamp of exactly 0 is falsy in JS and is treated like an absent
one; an engagement timestamp exactly equal to the deadline still does
not trigger cancellation.) -/
theorem validate_cancellable_iff (cw : CryptoWorld) (offerId : Nat) (offer : Offer)
    (t : Option Nat) (now : Nat) (h1 : offer.state = 1) :
    ((validatePure cw offerId offer t now).result = false ∧
     (validatePure cw offerId offer t now).sig.isSome = true) ↔
      (((t = none ∨ t = some 0) ∧ offer.acceptTimeMs + DAY_IN_MS < now) ∨
       (∃ v, t = some v ∧ offer.acceptTimeMs + DAY_IN_MS < v)) := by
  rw [← cancellableCond_eq_true_iff]
  unfold validatePure decisionCore
  rw [if_neg (by simp [h1])]
  cases hb : cancellableCond offer t now with
  | true => simp
  | false =>
    cases hc : completableCond offer t now with
    | true => simp
    | false => simp

/-- Witness for C2's amended theorem at a concrete input: no reaction
found, evaluated 1 ms past the deadline, yields the signed false
outcome. -/
theorem validate_cancellable_iff_witness :
    (validatePure cwC 1 offerC none 86400001).result = false ∧
    (validatePure cwC 1 offerC none 86400001).sig.isSome = true :=
  (validate_cancellable_iff cwC 1 offerC none 86400001 rfl).mpr
    (Or.inl ⟨Or.inl rfl, by decide⟩)

/-- Counterexample to claim C2 as stated: with a located engagement
timestamp of exactly 0 (present, and not greater than the deadline)
and now past the deadline, the code returns the signed cancellable
outcome, although the claimed condition (absent ∧ late, or present ∧
past deadline) is false. -/
theorem claim_c2_counterexample :
    ((validatePure cwC 1 offerC (some 0) 86400001).result = false ∧
     (validatePure cwC 1 offerC (some 0) 86400001).sig.isSome = true) ∧
    ¬((((some 0 : Option Nat) = none) ∧ offerC.acceptTimeMs + DAY_IN_MS < 86400001) ∨
      (∃ v, (some 0 : Option Nat) = some v ∧ offerC.acceptTimeMs + DAY_IN_MS < v)) := by
  refine ⟨⟨by decide, by decide⟩, ?_⟩
  rintro (⟨h, -⟩ | ⟨v, hv, hlt⟩)
  · exact Option.noConfusion h
  · injection hv with hv0
    omega

/-- Claim C3 (amended): for an ACCEPTED offer whose located engagement
timestamp is present, NONZERO, and does not exceed the deadline
acceptTimeMs + 86400000, the evaluation is the signed completable
outcome {result: true} exactly when now strictly exceeds the timestamp
plus durationMs, and the unsigned {result: false} otherwise. -/
theorem validate_completable_eq (cw : CryptoWorld) (offerId : Nat) (offer : Offer)
    (v now : Nat) (h1 : offer.state = 1) (h0 : v ≠ 0)
    (hd : v ≤ offer.acceptTimeMs + DAY_IN_MS) :
    validatePure cw offerId offer (some v) now =
      (if v + offer.durationMs < now then generateSignature cw offerId true
       else ⟨offerId, false, none⟩) := by
  unfold validatePure decisionCore
  rw [if_neg (by simp [h1])]
  have hc : cancellableCond offer (some v) now = false := by
    simp [cancellableCond, jsTruthy, jsNum, h0]
    omega
  have hcc : completableCond offer (some v) now = decide (v + offer.durationMs < now) := by
    simp [completableCond, jsTruthy, jsNum, h0]
  rw [hc, hcc]
  by_cases hlt : v + offer.durationMs < now <;> simp [hlt]

/-- Witness for C3's amended theorem, the concrete scenario of the
design notes: accepted at 0, duration 1000 ms, engagement at 500,
evaluated at 1600, yields the signed true outcome. -/
theorem validate_completable_eq_witness :
    validatePure cwC 1 offerC (some 500) 1600 = generateSignature cwC 1 true := by
  rw [validate_completable_eq cwC 1 offerC 500 1600 rfl (by decide) (by decide)]
  rw [if_pos (by decide)]

/-- Counterexample to claim C3 as stated: with an engagement timestamp
of exactly 0 (present and within the deadline) and now strictly past
timestamp + duration, the claim demands the signed completable
outcome, but the code returns the unsigned {result: false} (a zero
timestamp is falsy, so the completion branch can never fire). -/
theorem claim_c3_counterexample :
    offerC.state = 1 ∧ (0 : Nat) ≤ offerC.acceptTimeMs + DAY_IN_MS ∧
    0 + offerC.durationMs < 2000 ∧
    validatePure cwC 1 offerC (some 0) 2000 = ⟨1, false, none⟩ := by
  refine ⟨rfl, by decide, by decide, by decide⟩

/-- Claim C9: a located engagement timestamp of exactly 0 epoch
milliseconds is treated as absent: for an ACCEPTED offer the
evaluation is identical to the evaluation with no engagement at all,
its result is never true, and whenever now is strictly past
acceptTimeMs + 86400000 it is the signed cancellable outcome — even
though the qualifying engagement lay within the deadline. -/
theorem zero_reaction_time_treated_absent (cw : CryptoWorld) (offerId : Nat)
    (offer : Offer) (now : Nat) (h1 : offer.state = 1) :
    validatePure cw offerId offer (some 0) now = validatePure cw offerId offer none now ∧
    (validatePure cw offerId offer (some 0) now).result = false ∧
    (offer.acceptTimeMs + DAY_IN_MS < now →
      validatePure cw offerId offer (some 0) now = generateSignature cw offerId false) := by
  have h2 : cancellableCond offer (some 0) now = cancellableCond offer none now := by
    simp [cancellableCond, jsTruthy, jsNum]
  have h3 : completableCond offer (some 0) now = completableCond offer none now := by
    simp [completableCond, jsTruthy]
  refine ⟨by unfold validatePure decisionCore; rw [h2, h3], ?_, ?_⟩
  · unfold validatePure decisionCore
    rw [if_neg (by simp [h1]), h3]
    cases hb : cancellableCond offer (some 0) now <;>
      simp [completableCond, jsTruthy]
  · intro hlate
    have hc : cancellableCond offer (some 0) now = true := by
      simp [cancellableCond, jsTruthy, jsNum]
      omega
    unfold validatePure decisionCore
    rw [if_neg (by simp [h1]), hc]
    simp

/-- Witness for C9 at a concrete input: engagement at epoch 0,
evaluated 1 ms past the deadline, yields the signed false outcome. -/
theorem zero_reaction_time_treated_absent_witness :
    validatePure cwC 1 offerC (some 0) 86400001 = generateSignature cwC 1 false :=
  (zero_reaction_time_treated_absent cwC 1 offerC 86400001 rfl).2.2 (by decide)

/-! ## The paginated engagement index

Each strategy loops: fetch a page (fallible external call), look for a
matching item, otherwise advance to the next cursor; a falsy cursor
(null, undefined or the empty string) ends the loop.  The external
index is modelled as a function from the current cursor (none on the
first iteration) to either a thrown error or a page.  The loop is
written with a fuel argument; termination on every finite cursor
chain is proved below. -/

/-- One page of an index response: the item list plus the next-page
cursor (`response.next.cursor` / `response.result.next.cursor`). -/
structure Page (α : Type) where
  items : List α
  next : Option String
deriving DecidableEq

/-- JS truthiness of a cursor: null, undefined and "" are falsy. -/
def cursorTruthy : Option String → Bool
  | none => false
  | some s => s != ""

/-- Outcome of the while-loop of a strategy: a matching item, loop
exit on a falsy cursor, an error thrown during the scan, or fuel
exhaustion (the loop still running after that many iterations). -/
inductive ScanResult (α : Type) where
  | found (a : α)
  | notFound
  | failed (e : String)
  | outOfFuel
deriving DecidableEq

/-- The shared pagination loop of findRecast, findQuote and findLike:
fetch the page for the current cursor, return the first matching item
if any, stop with notFound on a falsy next cursor, otherwise continue
with the next cursor. -/
def scanPages {α : Type} (fetch : Option String → Except String (Page α))
    (pick : α → Bool) : Nat → Option String → ScanResult α
  | 0, _ => ScanResult.outOfFuel
  | fuel + 1, cursor =>
    match fetch cursor with
    | Except.error e => ScanResult.failed e
    | Except.ok page =>
      match page.items.find? pick with
      | some a => ScanResult.found a
      | none =>
        if cursorTruthy page.next then scanPages fetch pick fuel page.next
        else ScanResult.notFound

/-- The cursor chain starting at `cursor` ends within n + 1 fetches:
every fetch along it either throws or eventually yields a page with a
falsy next cursor. -/
def chainEnds {α : Type} (fetch : Option String → Except String (Page α)) :
    Nat → Option String → Bool
  | 0, cursor =>
    match fetch cursor with
    | Except.error _ => true
    | Except.ok page => !cursorTruthy page.next
  | n + 1, cursor =>
    match fetch cursor with
    | Except.error _ => true
    | Except.ok page => !cursorTruthy page.next || chainEnds fetch n page.next

/-! ## Engagement items and the three lookup strategies -/

/-- The user attached to a reaction event. -/
structure User where
  fid : Nat
deriving DecidableEq

/-- A recast or like event from fetchReactionsForCast.  The creation
time is read as `reaction_timestamp || timestamp`; fields are epoch
milliseconds, absent when the upstream record lacks them. -/
structure Reaction where
  user : User
  reaction_timestamp : Option Nat
  timestamp : Option Nat
deriving DecidableEq

/-- The castId of an embed. -/
structure CastId where
  hash : String
deriving DecidableEq

/-- An embed of a cast; only quote embeds carry a castId. -/
structure Embed where
  castId : Option CastId
deriving DecidableEq

/-- A cast from fetchAllCastsCreatedByUser. -/
structure Cast where
  hash : String
  embeds : List Embed
  timestamp : Option Nat
deriving DecidableEq

/-- The external engagement index (the Neynar client): recast pages
and like pages per cast hash, and cast pages per author fid, each
keyed additionally by the pagination cursor. -/
structure IndexWorld where
  recastFetch : String → Option String → Except String (Page Reaction)
  likeFetch : String → Option String → Except String (Page Reaction)
  castsByUser : Nat → Option String → Except String (Page Cast)

/-- The filter of findRecast: `recast.user.fid === receiverFid`. -/
def recastPick (receiverFid : Nat) : Reaction → Bool :=
  fun recast => recast.user.fid == receiverFid

/-- The filter of findLike: `like.user.fid === receiverFid`. -/
def likePick (receiverFid : Nat) : Reaction → Bool :=
  fun like => like.user.fid == receiverFid

/-- The filter of findQuote: some embed has a castId whose hash equals
the target cast hash. -/
def quotePick (castHash : String) : Cast → Bool :=
  fun cast => cast.embeds.any (fun embed =>
    match embed.castId with
    | some castId => castId.hash == castHash
    | none => false)

/-- findRecast: scan the recast pages of the cast; any error thrown
during the loop is caught and turned into null. -/
def findRecast (ix : IndexWorld) (fuel : Nat) (receiverFid : Nat)
    (castHash : String) : Option Reaction :=
  match scanPages (ix.recastFetch castHash) (recastPick receiverFid) fuel none with
  | ScanResult.found r => some r
  | _ => none

/-- findQuote: scan the casts authored by the receiver; any error
thrown during the loop is caught and turned into null. -/
def findQuote (ix : IndexWorld) (fuel : Nat) (receiverFid : Nat)
    (castHash : String) : Option Cast :=
  match scanPages (ix.castsByUser receiverFid) (quotePick castHash) fuel none with
  | ScanResult.found c => some c
  | _ => none

/-- findLike: scan the like pages of the cast; any error thrown during
the loop is caught and turned into null. -/
def findLike (ix : IndexWorld) (fuel : Nat) (receiverFid : Nat)
    (castHash : String) : Option Reaction :=
  match scanPages (ix.likeFetch castHash) (likePick receiverFid) fuel none with
  | ScanResult.found r => some r
  | _ => none

/-- `reaction.reaction_timestamp || reaction.timestamp` followed by
`new Date(...).valueOf()`: prefer the reaction-style field when it is
truthy, fall back to the generic field; when both are missing the
Date is invalid (NaN), which behaves exactly like null in every use
inside validate and is therefore modelled as none. -/
def jsOrTime (rt ts : Option Nat) : Option Nat :=
  match rt with
  | some v => if v ≠ 0 then some v else ts
  | none => ts

/-- The creation time of a found reaction event. -/
def reactionCreateTime (r : Reaction) : Option Nat :=
  jsOrTime r.reaction_timestamp r.timestamp

/-- The creation time of a found cast (casts carry no
reaction_timestamp field). -/
def castCreateTime (c : Cast) : Option Nat :=
  jsOrTime none c.timestamp

/-- findReactionCreateTimeMs: positional dispatch over
`REACTION_HANDLERS = [findRecast, findQuote, findLike]`.  A selector
outside 0..2 indexes past the table, so the call
`findReactionFunction(...)` is a call of undefined and throws a
TypeError that no local catch covers. -/
def findReactionCreateTimeMs (ix : IndexWorld) (fuel : Nat)
    (reactionType receiverFid : Nat) (castHash : String) :
    Except JsError (Option Nat) :=
  match reactionType with
  | 0 => Except.ok ((findRecast ix fuel receiverFid castHash).bind reactionCreateTime)
  | 1 => Except.ok ((findQuote ix fuel receiverFid castHash).bind castCreateTime)
  | 2 => Except.ok ((findLike ix fuel receiverFid castHash).bind reactionCreateTime)
  | _ => Except.error JsError.typeError

/-! ## Offer snapshot reader -/

/-- The raw on-chain offer tuple; only the positions read by
fetchOfferById are modelled (offer[2], offer[5], offer[6], offer[7],
offer[8], offer[9]).  Timestamps and durations are in seconds. -/
structure RawOffer where
  receiverAddress : String
  acceptTimestamp : Nat
  duration : Nat
  castUrl : String
  type : Nat
  state : Nat
deriving DecidableEq

/-- The ledger and the two identity/content resolutions used by
fetchOfferById, each a fallible external call. -/
structure LedgerWorld where
  ledger : Nat → Except String RawOffer
  lookupUserByCustodyAddress : String → Except String Nat
  lookUpCastByUrl : String → Except String String

/-- fetchOfferById: read the on-chain record, resolve the custody
address to a fid and the cast URL to a cast hash, and assemble the
offer snapshot (seconds scaled to milliseconds).  Any error — including
an unparseable offer id (NaN), which the contract call rejects — is
caught, logged, and leaves the function returning undefined (none). -/
def fetchOfferById (lw : LedgerWorld) (offerId : Option Nat) : Option Offer :=
  match offerId with
  | none => none
  | some oid =>
    match lw.ledger oid with
    | Except.error _ => none
    | Except.ok raw =>
      match lw.lookupUserByCustodyAddress raw.receiverAddress with
      | Except.error _ => none
      | Except.ok fid =>
        match lw.lookUpCastByUrl raw.castUrl with
        | Except.error _ => none
        | Except.ok hash =>
          some ⟨oid, raw.state, raw.type, fid, hash,
                raw.duration * 1000, raw.acceptTimestamp * 1000⟩

/-- Some step of the snapshot read throws: the ledger read, the
custody-address resolution, or the content-URL resolution. -/
def fetchFails (lw : LedgerWorld) (oid : Nat) : Bool :=
  match lw.ledger oid with
  | Except.error _ => true
  | Except.ok raw =>
    match lw.lookupUserByCustodyAddress raw.receiverAddress with
    | Except.error _ => true
    | Except.ok _ =>
      match lw.lookUpCastByUrl raw.castUrl with
      | Except.error _ => true
      | Except.ok _ => false

/-! ## validate and the HTTP handler -/

/-- validate: fetch the offer snapshot (a failed fetch leaves offer
undefined, so the following `offer.state` access throws a TypeError);
short-circuit unless the state is ACCEPTED (1); locate the reaction
creation time; then run the decision branches. -/
def validate (lw : LedgerWorld) (ix : IndexWorld) (cw : CryptoWorld)
    (now fuel : Nat) (offerId : Option Nat) : Except JsError VResult :=
  match fetchOfferById lw offerId with
  | none => Except.error JsError.typeError
  | some offer =>
    if offer.state ≠ 1 then Except.ok ⟨offer.id, false, none⟩
    else
      match findReactionCreateTimeMs ix fuel offer.type offer.receiverFid offer.castHash with
      | Except.error e => Except.error e
      | Except.ok t => Except.ok (decisionCore cw offer.id offer t now)

/-- JS truthiness of the offerId query parameter: missing and "" are
falsy. -/
def jsFalsy : Option String → Bool
  | none => true
  | some s => s == ""

/-- `Number(offerId)` restricted to the values the contract call
accepts: a non-empty digit string parses to the corresponding Nat;
anything else (NaN, negative, fractional) is rejected by the uint256
argument encoding and is modelled as none. -/
def jsParseNat (s : String) : Option Nat :=
  let cs := s.toList
  if !cs.isEmpty && cs.all Char.isDigit then
    some (cs.foldl (fun acc c => acc * 10 + (c.toNat - 48)) 0)
  else none

/-- A response body: either `{error: msg}` or a validation result. -/
inductive Body where
  | err (msg : String)
  | ok (r : VResult)
deriving DecidableEq

/-- An HTTP response (the fixed CORS headers carry no information and
are not modelled). -/
structure HttpResponse where
  statusCode : Nat
  body : Body
deriving DecidableEq

/-- The Lambda handler: a falsy offerId parameter is answered with
400; otherwise validate runs, a thrown error is answered with 500,
and a returned value with 200. -/
def handler (lw : LedgerWorld) (ix : IndexWorld) (cw : CryptoWorld)
    (now fuel : Nat) (offerId : Option String) : HttpResponse :=
  if jsFalsy offerId then ⟨400, Body.err "No offerId provided"⟩
  else
    match validate lw ix cw now fuel (jsParseNat (offerId.getD "")) with
    | Except.ok r => ⟨200, Body.ok r⟩
    | Except.error _ => ⟨500, Body.err "Internal server error"⟩

/-! ## Concrete worlds used to instantiate the pipeline theorems -/

/-- An index whose every page fetch throws. -/
def ixF : IndexWorld :=
  ⟨fun _ _ => Except.error "boom", fun _ _ => Except.error "boom",
   fun _ _ => Except.error "boom"⟩

/-- A ledger world on which offer 1 is ACCEPTED, recast type, accepted
at 0 with a 1 s duration: fetchOfferById yields offerC. -/
def lwC : LedgerWorld :=
  ⟨fun _ => Except.ok ⟨"addr", 0, 1, "url", 0, 1⟩,
   fun _ => Except.ok 7, fun _ => Except.ok "h"⟩

/-- A ledger world on which offer 1 sits in state 2 (not ACCEPTED). -/
def lw4 : LedgerWorld :=
  ⟨fun _ => Except.ok ⟨"addr", 0, 1, "url", 0, 2⟩,
   fun _ => Except.ok 7, fun _ => Except.ok "h"⟩

/-- The snapshot lw4 produces for offer 1. -/
def offer4 : Offer := ⟨1, 2, 0, 7, "h", 1000, 0⟩

/-- A ledger world whose every call throws. -/
def lwErr : LedgerWorld :=
  ⟨fun _ => Except.error "down", fun _ => Except.error "down",
   fun _ => Except.error "down"⟩

/-- A ledger world on which offer 1 is ACCEPTED with engagement-kind
selector 3, outside the handler table. -/
def lw10 : LedgerWorld :=
  ⟨fun _ => Except.ok ⟨"addr", 0, 1, "url", 3, 1⟩,
   fun _ => Except.ok 7, fun _ => Except.ok "h"⟩

/-- The snapshot lw10 produces for offer 1. -/
def offer10 : Offer := ⟨1, 1, 3, 7, "h", 1000, 0⟩

/-- Claim C4: an offer whose state is not ACCEPTED evaluates to
{offerId, result: false} with no signature, and the evaluation never
consults the engagement index, the clock, the scan fuel, or the
signer — the result is identical under any replacement of them. -/
theorem validate_not_accepted (lw : LedgerWorld) (ix ix' : IndexWorld)
    (cw cw' : CryptoWorld) (now now' fuel fuel' oid : Nat) (offer : Offer)
    (hf : fetchOfferById lw (some oid) = some offer) (hs : offer.state ≠ 1) :
    validate lw ix cw now fuel (some oid) = Except.ok ⟨offer.id, false, none⟩ ∧
    validate lw ix cw now fuel (some oid) = validate lw ix' cw' now' fuel' (some oid) := by
  unfold validate
  rw [hf]
  simp [hs]

/-- Witness for C4: a state-2 offer evaluates to the unsigned false
result. -/
theorem validate_not_accepted_witness :
    validate lw4 ixF cwC 0 1 (some 1) = Except.ok ⟨1, false, none⟩ :=
  (validate_not_accepted lw4 ixF ixF cwC cwC 0 0 1 1 1 offer4 rfl (by decide)).1

/-- Claim C5 (amended): the handler answers 400
{error: "No offerId provided"} exactly when the offerId query
parameter is missing or the empty string (the only falsy values of a
string parameter); since this holds for every ledger, index and
signer, the 400 path performs no upstream call and no signing.  A
non-empty parameter that fails to parse to a positive integer passes
the guard and proceeds to evaluation instead. -/
theorem handler_400_iff (lw : LedgerWorld) (ix : IndexWorld) (cw : CryptoWorld)
    (now fuel : Nat) (p : Option String) :
    handler lw ix cw now fuel p = ⟨400, Body.err "No offerId provided"⟩ ↔
      (p = none ∨ p = some "") := by
  unfold handler
  cases p with
  | none => simp [jsFalsy]
  | some s =>
    by_cases hs : s = ""
    · subst hs
      simp [jsFalsy]
    · rw [if_neg (by simp [jsFalsy, hs])]
      cases validate lw ix cw now fuel (jsParseNat ((some s).getD "")) <;> simp [hs]

/-- Counterexample to claim C5 as stated: the parameter "abc" does not
parse to a positive integer, yet the handler does not answer 400 — the
truthy string passes the guard, the contract call rejects NaN, and the
request ends in 500. -/
theorem claim_c5_counterexample :
    jsParseNat "abc" = none ∧
    handler lwErr ixF cwC 0 1 (some "abc") = ⟨500, Body.err "Internal server error"⟩ ∧
    handler lwErr ixF cwC 0 1 (some "abc") ≠ ⟨400, Body.err "No offerId provided"⟩ := by
  refine ⟨by decide, by decide, by decide⟩

/-- Claim C7: when the offer snapshot read fails (the ledger read, the
custody-address resolution or the content-URL resolution throws), the
request answers 500 {error: "Internal server error"} — under every
index, signer, clock and fuel, so no partial offer is evaluated, no
decision is produced and no signature is generated. -/
theorem fetch_failure_500 (lw : LedgerWorld) (s : String) (oid : Nat)
    (hp : jsParseNat s = some oid) (hf : fetchFails lw oid = true) :
    ∀ (ix : IndexWorld) (cw : CryptoWorld) (now fuel : Nat),
      handler lw ix cw now fuel (some s) = ⟨500, Body.err "Internal server error"⟩ := by
  intro ix cw now fuel
  have hsne : s ≠ "" := by
    intro h
    subst h
    simp [jsParseNat] at hp
  have hnone : fetchOfferById lw (some oid) = none := by
    unfold fetchFails at hf
    unfold fetchOfferById
    cases h1 : lw.ledger oid with
    | error e => simp [h1]
    | ok raw =>
      simp only [h1] at hf
      cases h2 : lw.lookupUserByCustodyAddress raw.receiverAddress with
      | error e => simp [h1, h2]
      | ok fid =>
        simp only [h2] at hf
        cases h3 : lw.lookUpCastByUrl raw.castUrl with
        | error e => simp [h1, h2, h3]
        | ok hash => simp [h3] at hf
  unfold handler
  rw [if_neg (by simp [jsFalsy, hsne])]
  unfold validate
  simp only [Option.getD_some]
  rw [hp, hnone]

/-- Witness for C7: a dead ledger turns request offerId=1 into 500. -/
theorem fetch_failure_500_witness :
    handler lwErr ixF cwC 0 1 (some "1") = ⟨500, Body.err "Internal server error"⟩ :=
  fetch_failure_500 lwErr "1" 1 (by decide) rfl ixF cwC 0 1

/-- Claim C10: an ACCEPTED offer whose engagement-kind selector lies
outside the positional handler table {0, 1, 2} makes the dispatch call
undefined; the thrown TypeError is not covered by the scan's local
catch, so the whole request answers 500 instead of proceeding with an
absent engagement. -/
theorem bad_selector_500 (lw : LedgerWorld) (ix : IndexWorld) (cw : CryptoWorld)
    (now fuel : Nat) (s : String) (oid : Nat) (offer : Offer)
    (hp : jsParseNat s = some oid)
    (hf : fetchOfferById lw (some oid) = some offer)
    (hs : offer.state = 1) (ht : 3 ≤ offer.type) :
    handler lw ix cw now fuel (some s) = ⟨500, Body.err "Internal server error"⟩ := by
  have hsne : s ≠ "" := by
    intro h
    subst h
    simp [jsParseNat] at hp
  have hdisp : findReactionCreateTimeMs ix fuel offer.type offer.receiverFid offer.castHash
      = Except.error JsError.typeError := by
    obtain ⟨n, hn⟩ : ∃ n, offer.type = n + 3 := ⟨offer.type - 3, by omega⟩
    rw [hn]
    rfl
  unfold handler
  rw [if_neg (by simp [jsFalsy, hsne])]
  unfold validate
  simp only [Option.getD_some]
  rw [hp, hf]
  simp [hs, hdisp]

/-- Witness for C10: selector 3 on an ACCEPTED offer yields 500. -/
theorem bad_selector_500_witness :
    handler lw10 ixF cwC 0 1 (some "1") = ⟨500, Body.err "Internal server error"⟩ :=
  bad_selector_500 lw10 ixF cwC 0 1 "1" 1 offer10 (by decide) rfl rfl (by decide)

/-! ## Claim C6: scan errors degrade to "not found" -/

/-- The pagination loop dispatched for this engagement kind threw an
error (for a selector outside the table nothing is dispatched). -/
def scanFailed (ix : IndexWorld) (fuel ty fid : Nat) (hash : String) : Bool :=
  match ty with
  | 0 =>
    match scanPages (ix.recastFetch hash) (recastPick fid) fuel none with
    | ScanResult.failed _ => true
    | _ => false
  | 1 =>
    match scanPages (ix.castsByUser fid) (quotePick hash) fuel none with
    | ScanResult.failed _ => true
    | _ => false
  | 2 =>
    match scanPages (ix.likeFetch hash) (likePick fid) fuel none with
    | ScanResult.failed _ => true
    | _ => false
  | _ => false

/-- A failed scan is caught inside the strategy and surfaces from the
lookup as a normal null, not as a thrown error. -/
theorem findReaction_ok_none_of_scanFailed (ix : IndexWorld) (fuel ty fid : Nat)
    (hash : String) (he : scanFailed ix fuel ty fid hash = true) :
    findReactionCreateTimeMs ix fuel ty fid hash = Except.ok none := by
  match ty with
  | 0 =>
    simp only [scanFailed] at he
    cases hsc : scanPages (ix.recastFetch hash) (recastPick fid) fuel none with
    | failed e => simp [findReactionCreateTimeMs, findRecast, hsc]
    | found a => rw [hsc] at he; simp at he
    | notFound => rw [hsc] at he; simp at he
    | outOfFuel => rw [hsc] at he; simp at he
  | 1 =>
    simp only [scanFailed] at he
    cases hsc : scanPages (ix.castsByUser fid) (quotePick hash) fuel none with
    | failed e => simp [findReactionCreateTimeMs, findQuote, hsc]
    | found a => rw [hsc] at he; simp at he
    | notFound => rw [hsc] at he; simp at he
    | outOfFuel => rw [hsc] at he; simp at he
  | 2 =>
    simp only [scanFailed] at he
    cases hsc : scanPages (ix.likeFetch hash) (likePick fid) fuel none with
    | failed e => simp [findReactionCreateTimeMs, findLike, hsc]
    | found a => rw [hsc] at he; simp at he
    | notFound => rw [hsc] at he; simp at he
    | outOfFuel => rw [hsc] at he; simp at he
  | (n + 3) => simp [scanFailed] at he

/-- Claim C6: an error thrown during the paginated scan is caught
inside the strategy and treated as "not found": the evaluation of an
ACCEPTED offer proceeds exactly as with an absent engagement
timestamp, and the request still answers 200 — a scan error never
surfaces as an error of the whole request. -/
theorem scan_error_degrades (lw : LedgerWorld) (ix : IndexWorld) (cw : CryptoWorld)
    (now fuel oid : Nat) (offer : Offer)
    (hf : fetchOfferById lw (some oid) = some offer)
    (hs : offer.state = 1)
    (he : scanFailed ix fuel offer.type offer.receiverFid offer.castHash = true) :
    validate lw ix cw now fuel (some oid) =
      Except.ok (decisionCore cw offer.id offer none now) ∧
    ∀ s, jsParseNat s = some oid →
      handler lw ix cw now fuel (some s) =
        ⟨200, Body.ok (decisionCore cw offer.id offer none now)⟩ := by
  have hok := findReaction_ok_none_of_scanFailed ix fuel offer.type offer.receiverFid
    offer.castHash he
  have hv : validate lw ix cw now fuel (some oid) =
      Except.ok (decisionCore cw offer.id offer none now) := by
    unfold validate
    rw [hf]
    simp [hs, hok]
  refine ⟨hv, ?_⟩
  intro s hp
  have hsne : s ≠ "" := by
    intro h
    subst h
    simp [jsParseNat] at hp
  unfold handler
  rw [if_neg (by simp [jsFalsy, hsne])]
  simp only [Option.getD_some]
  rw [hp, hv]

/-- Witness for C6: every page fetch of ixF throws, and the ACCEPTED
offer of lwC still evaluates to a normal (absent-engagement) result. -/
theorem scan_error_degrades_witness :
    validate lwC ixF cwC 0 1 (some 1) =
      Except.ok (decisionCore cwC offerC.id offerC none 0) :=
  (scan_error_degrades lwC ixF cwC 0 1 1 offerC rfl rfl (by decide)).1

/-! ## Claim C8: the pagination loop terminates on finite cursor chains -/

/-- Claim C8: for every engagement-kind strategy (the three strategies
are instances of scanPages at their respective fetchers and filters),
the paginated scan terminates when the index yields a finite cursor
chain: the result is already stable at fuel n + 1 (each iteration
either returns a match or advances the cursor, so the loop never
runs out), the stable result is not the out-of-fuel marker, and a page
with no match and a falsy next cursor ends the loop with notFound. -/
theorem scanPages_terminates {α : Type} (fetch : Option String → Except String (Page α))
    (pick : α → Bool) (n : Nat) :
    ∀ cursor, chainEnds fetch n cursor = true →
      ((∀ fuel, n < fuel →
          scanPages fetch pick fuel cursor = scanPages fetch pick (n + 1) cursor) ∧
       scanPages fetch pick (n + 1) cursor ≠ ScanResult.outOfFuel ∧
       (∀ page, fetch cursor = Except.ok page → page.items.find? pick = none →
          cursorTruthy page.next = false →
          scanPages fetch pick (n + 1) cursor = ScanResult.notFound)) := by
  induction n with
  | zero =>
    intro cursor h
    simp only [chainEnds] at h
    cases hf : fetch cursor with
    | error e =>
      refine ⟨?_, by simp [scanPages, hf], ?_⟩
      · intro fuel hfuel
        obtain ⟨m, rfl⟩ : ∃ m, fuel = m + 1 := ⟨fuel - 1, by omega⟩
        simp [scanPages, hf]
      · intro page hpage _ _
        exact absurd hpage (by simp)
    | ok page =>
      rw [hf] at h
      have hb : cursorTruthy page.next = false := by simpa using h
      cases hfind : page.items.find? pick with
      | some a =>
        refine ⟨?_, by simp [scanPages, hf, hfind], ?_⟩
        · intro fuel hfuel
          obtain ⟨m, rfl⟩ : ∃ m, fuel = m + 1 := ⟨fuel - 1, by omega⟩
          simp [scanPages, hf, hfind]
        · intro page' hp hfind' _
          injection hp with hpe
          subst hpe
          rw [hfind] at hfind'
          exact absurd hfind' (by simp)
      | none =>
        refine ⟨?_, by simp [scanPages, hf, hfind, hb], ?_⟩
        · intro fuel hfuel
          obtain ⟨m, rfl⟩ : ∃ m, fuel = m + 1 := ⟨fuel - 1, by omega⟩
          simp [scanPages, hf, hfind, hb]
        · intro page' hp hfind' hb'
          simp [scanPages, hf, hfind, hb]
  | succ n ih =>
    intro cursor h
    simp only [chainEnds] at h
    cases hf : fetch cursor with
    | error e =>
      refine ⟨?_, by simp [scanPages, hf], ?_⟩
      · intro fuel hfuel
        obtain ⟨m, rfl⟩ : ∃ m, fuel = m + 1 := ⟨fuel - 1, by omega⟩
        simp [scanPages, hf]
      · intro page hpage _ _
        exact absurd hpage (by simp)
    | ok page =>
      rw [hf] at h
      have h2 : (!cursorTruthy page.next || chainEnds fetch n page.next) = true := h
      cases hfind : page.items.find? pick with
      | some a =>
        refine ⟨?_, by simp [scanPages, hf, hfind], ?_⟩
        · intro fuel hfuel
          obtain ⟨m, rfl⟩ : ∃ m, fuel = m + 1 := ⟨fuel - 1, by omega⟩
          simp [scanPages, hf, hfind]
        · intro page' hp hfind' _
          injection hp with hpe
          subst hpe
          rw [hfind] at hfind'
          exact absurd hfind' (by simp)
      | none =>
        cases hb : cursorTruthy page.next with
        | false =>
          refine ⟨?_, by simp [scanPages, hf, hfind, hb], ?_⟩
          · intro fuel hfuel
            obtain ⟨m, rfl⟩ : ∃ m, fuel = m + 1 := ⟨fuel - 1, by omega⟩
            simp [scanPages, hf, hfind, hb]
          · intro page' hp hfind' hb'
            simp [scanPages, hf, hfind, hb]
        | true =>
          have hchain : chainEnds fetch n page.next = true := by
            rw [hb] at h2
            simpa using h2
          obtain ⟨ih1, ih2, -⟩ := ih page.next hchain
          have hstep : scanPages fetch pick (n + 1 + 1) cursor =
              scanPages fetch pick (n + 1) page.next := by
            simp [scanPages, hf, hfind, hb]
          refine ⟨?_, by rw [hstep]; exact ih2, ?_⟩
          · intro fuel hfuel
            obtain ⟨m, rfl⟩ : ∃ m, fuel = m + 1 := ⟨fuel - 1, by omega⟩
            have hm : n < m := by omega
            calc scanPages fetch pick (m + 1) cursor
                = scanPages fetch pick m page.next := by
                  simp [scanPages, hf, hfind, hb]
              _ = scanPages fetch pick (n + 1) page.next := ih1 m hm
              _ = scanPages fetch pick (n + 1 + 1) cursor := hstep.symm
          · intro page' hp hfind' hb'
            injection hp with hpe
            subst hpe
            rw [hb] at hb'
            exact absurd hb' (by simp)

/-- A one-page index with no matching item, for the C8 witness. -/
def fetchW : Option String → Except String (Page Nat) :=
  fun _ => Except.ok ⟨[], none⟩

/-- A filter matching nothing, for the C8 witness. -/
def pickW : Nat → Bool := fun _ => false

/-- Witness for C8: on a one-page index the scan is stable at fuel 1
and does not run out of fuel. -/
theorem scanPages_terminates_witness :
    scanPages fetchW pickW 3 none = scanPages fetchW pickW 1 none ∧
    scanPages fetchW pickW 1 none ≠ ScanResult.outOfFuel :=
  ⟨(scanPages_terminates fetchW pickW 0 none rfl).1 3 (by omega),
   (scanPages_terminates fetchW pickW 0 none rfl).2.1⟩

end Validator
